import Mathlib

/-!
Verification of the message pipeline and health-status logic of
`bot_engine.py` (a Telegram/Gemini chat relay).

Texts are modelled as `List Char`.  The pieces embedded from the source:

* `pyStrip`          — `str.strip()` applied in `chat_handler` (line 121);
  Python strips the full Unicode whitespace set, approximated here by
  `Char.isWhitespace` (the claims do not depend on the predicate).
* `slicesFrom`       — the slice comprehension
  `[text[i:i+4096] for i in range(0, len(text), 4096)]` (lines 125-128).
* `chunkMessages`    — the `if len(text) > 4096 ... else [text]` choice
  (lines 124-130).
* `chat_handler`     — the whole handler (lines 107-146), with the external
  collaborators (typing indicator, Gemini call, per-chunk `reply_text`)
  as an explicit outcome environment, and the emitted chunks being the
  texts handed to `reply_text` in order.
* `get_health_status` — lines 49-69, with the three psutil reads as
  fallible collaborator outcomes carrying pre-formatted field strings
  (float formatting and the clock are collaborator effects).
-/

set_option autoImplicit false

/-- `TELEGRAM_MAX_MESSAGE_LENGTH = 4096` (line 34 of the source). -/
def TELEGRAM_MAX_MESSAGE_LENGTH : Nat := 4096

/-- `str.strip()`: drop leading and trailing whitespace (line 121). -/
def pyStrip (s : List Char) : List Char :=
  ((s.dropWhile Char.isWhitespace).reverse.dropWhile Char.isWhitespace).reverse

/-- The slice comprehension of lines 125-128:
`[text[i:i+4096] for i in range(0, len(text), 4096)]`, written as the
equivalent take/drop recursion. -/
def slicesFrom (t : List Char) : List (List Char) :=
  if _h : t = [] then []
  else t.take TELEGRAM_MAX_MESSAGE_LENGTH ::
    slicesFrom (t.drop TELEGRAM_MAX_MESSAGE_LENGTH)
termination_by t.length
decreasing_by
  simp only [List.length_drop, TELEGRAM_MAX_MESSAGE_LENGTH]
  have : 0 < t.length := List.length_pos.mpr _h
  omega

/-- Lines 124-130: texts longer than the limit are sliced, anything else
(the empty string included) becomes the single chunk `[text]`. -/
def chunkMessages (s : List Char) : List (List Char) :=
  if s.length > TELEGRAM_MAX_MESSAGE_LENGTH then slicesFrom s else [s]

theorem slicesFrom_nil : slicesFrom [] = [] := by
  rw [slicesFrom]
  simp

theorem slicesFrom_cons (t : List Char) (h : t ≠ []) :
    slicesFrom t = t.take TELEGRAM_MAX_MESSAGE_LENGTH ::
      slicesFrom (t.drop TELEGRAM_MAX_MESSAGE_LENGTH) := by
  rw [slicesFrom]
  simp [h]

theorem slicesFrom_flatten (t : List Char) : (slicesFrom t).flatten = t := by
  induction t using slicesFrom.induct with
  | case1 => simp [slicesFrom_nil]
  | case2 t h ih =>
      rw [slicesFrom_cons t h]
      simp [List.flatten, ih, List.take_append_drop]

/-- Concatenating the chunks gives back the input, for every input. -/
theorem chunkMessages_flatten (s : List Char) : (chunkMessages s).flatten = s := by
  unfold chunkMessages
  by_cases h : s.length > TELEGRAM_MAX_MESSAGE_LENGTH
  · simp [h, slicesFrom_flatten]
  · simp [h]

theorem slicesFrom_len_le (t : List Char) :
    ∀ c ∈ slicesFrom t, c.length ≤ TELEGRAM_MAX_MESSAGE_LENGTH := by
  induction t using slicesFrom.induct with
  | case1 => simp [slicesFrom_nil]
  | case2 t h ih =>
      rw [slicesFrom_cons t h]
      intro c hc
      rcases List.mem_cons.mp hc with rfl | hc
      · simp
      · exact ih c hc

theorem slicesFrom_nonempty (t : List Char) :
    ∀ c ∈ slicesFrom t, c ≠ [] := by
  induction t using slicesFrom.induct with
  | case1 => simp [slicesFrom_nil]
  | case2 t h ih =>
      rw [slicesFrom_cons t h]
      intro c hc
      rcases List.mem_cons.mp hc with rfl | hc
      · have : 0 < t.length := List.length_pos.mpr h
        have : (t.take TELEGRAM_MAX_MESSAGE_LENGTH).length > 0 := by
          simp [List.length_take, TELEGRAM_MAX_MESSAGE_LENGTH]
          omega
        exact List.length_pos.mp this
      · exact ih c hc

theorem slicesFrom_dropLast_len (t : List Char) :
    ∀ c ∈ (slicesFrom t).dropLast, c.length = TELEGRAM_MAX_MESSAGE_LENGTH := by
  induction t using slicesFrom.induct with
  | case1 => simp [slicesFrom_nil]
  | case2 t h ih =>
      rw [slicesFrom_cons t h]
      by_cases hrest : slicesFrom (t.drop TELEGRAM_MAX_MESSAGE_LENGTH) = []
      · simp [hrest]
      · intro c hc
        rw [List.dropLast_cons_of_ne_nil hrest] at hc
        rcases List.mem_cons.mp hc with rfl | hc
        · have hlen : TELEGRAM_MAX_MESSAGE_LENGTH < t.length := by
            by_contra hle
            have : t.drop TELEGRAM_MAX_MESSAGE_LENGTH = [] :=
              List.drop_eq_nil_of_le (by omega)
            rw [this, slicesFrom_nil] at hrest
            exact hrest rfl
          simp [List.length_take]
          omega
        · exact ih c hc

theorem slicesFrom_length (t : List Char) (h : t ≠ []) :
    (slicesFrom t).length =
      (t.length + (TELEGRAM_MAX_MESSAGE_LENGTH - 1)) / TELEGRAM_MAX_MESSAGE_LENGTH := by
  induction t using slicesFrom.induct with
  | case1 => exact absurd rfl h
  | case2 t h0 ih =>
      rw [slicesFrom_cons t h0]
      by_cases hrest : t.drop TELEGRAM_MAX_MESSAGE_LENGTH = []
      · rw [hrest, slicesFrom_nil]
        have h1 : 0 < t.length := List.length_pos.mpr h0
        have h2 : t.length ≤ TELEGRAM_MAX_MESSAGE_LENGTH := by
          by_contra hgt
          have := List.drop_eq_nil_iff.mp hrest
          omega
        simp only [List.length_cons, List.length_nil, TELEGRAM_MAX_MESSAGE_LENGTH] at *
        omega
      · have hlen : TELEGRAM_MAX_MESSAGE_LENGTH < t.length := by
          by_contra hle
          exact hrest (List.drop_eq_nil_of_le (by omega))
        have := ih hrest
        simp only [List.length_cons, this, List.length_drop,
          TELEGRAM_MAX_MESSAGE_LENGTH] at *
        omega

/-- Outcome of the single `generate_content` call (lines 116-119): a reply
text, a `google.genai` `APIError` (caught on line 137), or any other
exception (caught on line 142; this also covers `response.text` turning out
unusable on line 121, which raises after the one call was made). -/
inductive GenOutcome where
  | ok (text : List Char)
  | apiError
  | exn
deriving DecidableEq, Repr

/-- Outcomes of the external transport calls made by `chat_handler`:
whether `send_chat_action` (line 114) succeeds, the result of the Gemini
call, and whether the k-th `reply_text` call of this handler invocation
succeeds (`false` means the call raises). -/
structure ChatEnv where
  typingOk : Bool
  gen : GenOutcome
  sendOk : Nat → Bool

/-- What one `chat_handler` invocation did: the texts handed to
`reply_text` in order (the emitted outbound chunks), how many Gemini
`generate_content` calls were issued, and whether an exception escaped the
handler. -/
structure ChatResult where
  sent : List (List Char)
  genCalls : Nat
  escaped : Bool
deriving DecidableEq, Repr

/-- The fixed provider-error apology of lines 139-141. -/
def providerApology : List Char :=
  "An error occurred while communicating with the Gemini API. Please try again later.".toList

/-- The fixed unexpected-error apology of lines 144-146. -/
def unexpectedApology : List Char :=
  "An unexpected error occurred. Please check the bot logs.".toList

/-- The `for message in messages: await update.message.reply_text(message)`
loop of lines 132-133.  `k` counts the `reply_text` calls already made.
Returns the texts passed to `reply_text` (a failing call is still a call)
and whether the whole loop ran without an exception. -/
def deliverLoop (sendOk : Nat → Bool) : Nat → List (List Char) → List (List Char) × Bool
  | _, [] => ([], true)
  | k, m :: rest =>
    if sendOk k then
      let r := deliverLoop sendOk (k + 1) rest
      (m :: r.1, r.2)
    else ([m], false)

/-- `chat_handler`, lines 113-146.  The `try` body runs `send_chat_action`,
then the Gemini call, then strip/chunk/deliver; `except APIError` sends the
provider apology, `except Exception` sends the unexpected-error apology.
An exception raised by an apology `reply_text` inside an `except` clause is
not caught by the sibling clause and escapes the handler. -/
def chat_handler (env : ChatEnv) : ChatResult :=
  if env.typingOk then
    match env.gen with
    | .apiError =>
        ⟨[providerApology], 1, !env.sendOk 0⟩
    | .exn =>
        ⟨[unexpectedApology], 1, !env.sendOk 0⟩
    | .ok t =>
        let msgs := chunkMessages (pyStrip t)
        let r := deliverLoop env.sendOk 0 msgs
        if r.2 then ⟨r.1, 1, false⟩
        else ⟨r.1 ++ [unexpectedApology], 1, !env.sendOk r.1.length⟩
  else
    ⟨[unexpectedApology], 0, !env.sendOk 0⟩

/-- Result of a Python call at the embedding's interface: a returned value
or a raised exception carrying its `str(e)` rendering. -/
inductive PyResult (α : Type) where
  | ok (a : α)
  | exn (msg : List Char)
deriving DecidableEq, Repr

/-- Outcomes of the collaborator reads inside `get_health_status`
(lines 53-55): `psutil.cpu_percent`, `psutil.virtual_memory`,
`psutil.disk_usage('/')`, each of which may raise.  The numeric fields are
carried already rendered (the `:.1f` / `:.2f` float formatting and
`datetime.now` timestamp are collaborator effects outside the embedding). -/
structure HealthEnv where
  cpu_percent : PyResult (List Char)
  virtual_memory : PyResult (List Char × List Char)
  disk_usage : PyResult (List Char × List Char)
  nowStr : List Char

/-- The `status_message` template of lines 57-66 with the six rendered
fields interpolated. -/
def statusMessage (nowStr cpu memP memG diskP diskG : List Char) : List Char :=
  "🤖 **Bot Health Status Report**\n⏰ ".toList ++ nowStr ++
  "\n\n🖥️ **VM System Stats:**\n  - **CPU Usage:** `".toList ++ cpu ++
  "%`\n  - **RAM Used:** `".toList ++ memP ++ "%` (".toList ++ memG ++
  " GB)\n  - **Disk Used:** `".toList ++ diskP ++ "%` (".toList ++ diskG ++
  " GB)\n\n💡 **Service Status:** Running persistently inside Tmux/Screen\n".toList

/-- The fallback string built on line 69:
`f"🚨 **Health Check Failed:** Could not gather system metrics. Error: {e}"`. -/
def healthFailMsg (e : List Char) : List Char :=
  "🚨 **Health Check Failed:** Could not gather system metrics. Error: ".toList ++ e

/-- `get_health_status`, lines 49-69: the three psutil reads run in order
inside a `try`; `except Exception as e` returns the fallback string built
from the first raised exception.  The interface result is a `PyResult`: a
`.exn` here would mean an exception reaching the caller. -/
def get_health_status (env : HealthEnv) : PyResult (List Char) :=
  match env.cpu_percent with
  | .exn e => .ok (healthFailMsg e)
  | .ok cpu =>
    match env.virtual_memory with
    | .exn e => .ok (healthFailMsg e)
    | .ok (memP, memG) =>
      match env.disk_usage with
      | .exn e => .ok (healthFailMsg e)
      | .ok (diskP, diskG) =>
        .ok (statusMessage env.nowStr cpu memP memG diskP diskG)

/-- The first exception raised by the three metric reads, in program
order, if any. -/
def firstMetricsError (env : HealthEnv) : Option (List Char) :=
  match env.cpu_percent with
  | .exn e => some e
  | .ok _ =>
    match env.virtual_memory with
    | .exn e => some e
    | .ok _ =>
      match env.disk_usage with
      | .exn e => some e
      | .ok _ => none

theorem replicate_a_ne_nil (n : Nat) (h : 0 < n) : List.replicate n 'a' ≠ [] :=
  List.ne_nil_of_length_pos (by rw [List.length_replicate]; omega)

theorem slices_replicate_5000 :
    slicesFrom (List.replicate 5000 'a') =
      [List.replicate 4096 'a', List.replicate 904 'a'] := by
  rw [slicesFrom_cons _ (replicate_a_ne_nil 5000 (by omega))]
  simp only [TELEGRAM_MAX_MESSAGE_LENGTH, List.take_replicate, List.drop_replicate]
  norm_num
  rw [slicesFrom_cons _ (replicate_a_ne_nil 904 (by omega))]
  simp only [TELEGRAM_MAX_MESSAGE_LENGTH, List.take_replicate, List.drop_replicate]
  norm_num [List.replicate_zero, slicesFrom_nil]

/-- C1: for every generated text `t`, chunking the whitespace-stripped form
of `t` and concatenating the chunks in order reproduces the stripped text
exactly, at every length (`chunkMessages` is handed arbitrary stripped
texts, so this holds at 0, 4096, 4097 and all multiples of 4096). -/
theorem chunk_roundtrip_C1 (t : List Char) :
    (chunkMessages (pyStrip t)).flatten = pyStrip t :=
  chunkMessages_flatten (pyStrip t)

/-- C2: every chunk is at most 4096 characters; when the text is longer
than 4096, every chunk but possibly the last is exactly 4096; a text of
5000 characters yields exactly the chunk lengths `[4096, 904]`. -/
theorem chunk_bound_C2 (t : List Char) :
    (∀ c ∈ chunkMessages t, c.length ≤ TELEGRAM_MAX_MESSAGE_LENGTH) ∧
    (TELEGRAM_MAX_MESSAGE_LENGTH < t.length →
      ∀ c ∈ (chunkMessages t).dropLast, c.length = TELEGRAM_MAX_MESSAGE_LENGTH) ∧
    (chunkMessages (List.replicate 5000 'a')).map List.length = [4096, 904] := by
  refine ⟨?_, ?_, ?_⟩
  · intro c hc
    unfold chunkMessages at hc
    by_cases h : t.length > TELEGRAM_MAX_MESSAGE_LENGTH
    · rw [if_pos h] at hc
      exact slicesFrom_len_le t c hc
    · rw [if_neg h] at hc
      rcases List.mem_singleton.mp hc with rfl
      omega
  · intro h c hc
    unfold chunkMessages at hc
    rw [if_pos h] at hc
    exact slicesFrom_dropLast_len t c hc
  · have h5 : (List.replicate 5000 'a').length > TELEGRAM_MAX_MESSAGE_LENGTH := by
      rw [List.length_replicate]
      decide
    unfold chunkMessages
    rw [if_pos h5, slices_replicate_5000]
    simp only [List.map_cons, List.map_nil, List.length_replicate]

theorem chunk_bound_C2_witness :
    TELEGRAM_MAX_MESSAGE_LENGTH < (List.replicate 5000 'a').length ∧
    (∀ c ∈ (chunkMessages (List.replicate 5000 'a')).dropLast,
      c.length = TELEGRAM_MAX_MESSAGE_LENGTH) :=
  ⟨by rw [List.length_replicate]; decide,
   (chunk_bound_C2 (List.replicate 5000 'a')).2.1
     (by rw [List.length_replicate]; decide)⟩

/-- C3: a text of at most 4096 characters becomes exactly one chunk holding
the full text (so the empty string gives the single chunk `[]`, and a text
of exactly 4096 characters gives one chunk of length 4096). -/
theorem single_chunk_C3 (t : List Char)
    (h : t.length ≤ TELEGRAM_MAX_MESSAGE_LENGTH) :
    chunkMessages t = [t] := by
  unfold chunkMessages
  rw [if_neg (by omega)]

theorem single_chunk_C3_witness :
    ([] : List Char).length ≤ TELEGRAM_MAX_MESSAGE_LENGTH ∧
    chunkMessages [] = [[]] ∧
    (List.replicate 4096 'a').length ≤ TELEGRAM_MAX_MESSAGE_LENGTH ∧
    chunkMessages (List.replicate 4096 'a') = [List.replicate 4096 'a'] :=
  ⟨by decide, single_chunk_C3 [] (by decide),
   by rw [List.length_replicate]; decide,
   single_chunk_C3 _ (by rw [List.length_replicate]; decide)⟩

/-- C9: the number of chunks is 1 for the empty text and
`⌈len / 4096⌉ = (len + 4095) / 4096` for non-empty text; for non-empty
text (in particular when the length is a positive multiple of 4096) every
chunk is non-empty, so no empty trailing chunk is produced. -/
theorem chunk_count_C9 (t : List Char) :
    (t.length = 0 → (chunkMessages t).length = 1) ∧
    (0 < t.length → (chunkMessages t).length =
      (t.length + (TELEGRAM_MAX_MESSAGE_LENGTH - 1)) / TELEGRAM_MAX_MESSAGE_LENGTH) ∧
    (0 < t.length → TELEGRAM_MAX_MESSAGE_LENGTH ∣ t.length →
      ∀ c ∈ chunkMessages t, c ≠ []) := by
  refine ⟨?_, ?_, ?_⟩
  · intro h
    unfold chunkMessages
    rw [if_neg (by omega)]
    rfl
  · intro h
    unfold chunkMessages
    by_cases hgt : t.length > TELEGRAM_MAX_MESSAGE_LENGTH
    · rw [if_pos hgt, slicesFrom_length t (by intro he; subst he; simp at h)]
    · rw [if_neg hgt]
      simp only [List.length_singleton, TELEGRAM_MAX_MESSAGE_LENGTH] at *
      omega
  · intro h _ c hc
    unfold chunkMessages at hc
    by_cases hgt : t.length > TELEGRAM_MAX_MESSAGE_LENGTH
    · rw [if_pos hgt] at hc
      exact slicesFrom_nonempty t c hc
    · rw [if_neg hgt] at hc
      rcases List.mem_singleton.mp hc with rfl
      exact List.length_pos.mp h

theorem chunk_count_C9_witness :
    0 < (List.replicate 8192 'a').length ∧
    TELEGRAM_MAX_MESSAGE_LENGTH ∣ (List.replicate 8192 'a').length ∧
    (chunkMessages (List.replicate 8192 'a')).length =
      ((List.replicate 8192 'a').length + (TELEGRAM_MAX_MESSAGE_LENGTH - 1)) /
        TELEGRAM_MAX_MESSAGE_LENGTH ∧
    (∀ c ∈ chunkMessages (List.replicate 8192 'a'), c ≠ []) :=
  ⟨by rw [List.length_replicate]; decide, by rw [List.length_replicate]; decide,
   (chunk_count_C9 (List.replicate 8192 'a')).2.1 (by rw [List.length_replicate]; decide),
   (chunk_count_C9 (List.replicate 8192 'a')).2.2 (by rw [List.length_replicate]; decide)
     (by rw [List.length_replicate]; decide)⟩

/-- C4, counterexample to the claim as stated: when the `send_chat_action`
call raises, the handler jumps to `except Exception` before reaching the
Gemini call, so zero `generate_content` calls are issued on that path. -/
theorem single_call_C4_cex :
    (chat_handler ⟨false, GenOutcome.apiError, fun _ => true⟩).genCalls = 0 ∧
    (0 : Nat) ≠ 1 :=
  ⟨rfl, by decide⟩

/-- C4 (amended): exactly one `generate_content` call is issued whenever
the typing-indicator call succeeds — on success, on `APIError` and on any
other failure alike — and zero calls when the typing-indicator call
raises; no path issues two or more calls. -/
theorem single_call_C4 (env : ChatEnv) :
    (chat_handler env).genCalls = if env.typingOk then 1 else 0 := by
  obtain ⟨t, g, s⟩ := env
  cases t
  · rfl
  · cases g with
    | ok text =>
        cases hok : (deliverLoop s 0 (chunkMessages (pyStrip text))).2 <;>
          simp [chat_handler, hok]
    | apiError => rfl
    | exn => rfl

/-- C5: when the typing indicator succeeded and the Gemini call raises
`APIError`, the handler hands exactly one text to `reply_text`: the fixed
provider apology — so no chunk derived from the failed generation is ever
emitted. -/
theorem provider_error_C5 (env : ChatEnv) (h1 : env.typingOk = true)
    (h2 : env.gen = GenOutcome.apiError) :
    (chat_handler env).sent = [providerApology] := by
  obtain ⟨t, g, s⟩ := env
  cases h1
  cases h2
  rfl

theorem provider_error_C5_witness :
    (⟨true, GenOutcome.apiError, fun _ => true⟩ : ChatEnv).typingOk = true ∧
    (⟨true, GenOutcome.apiError, fun _ => true⟩ : ChatEnv).gen = GenOutcome.apiError ∧
    (chat_handler ⟨true, GenOutcome.apiError, fun _ => true⟩).sent = [providerApology] :=
  ⟨rfl, rfl, provider_error_C5 _ rfl rfl⟩

/-- C6, counterexample to the claim as stated: a `reply_text` failure is a
non-provider failure during message handling, yet the handler has already
handed the chunk to the failing `reply_text` call and then hands over the
apology as well — two emitted chunks, not exactly one. -/
theorem unexpected_single_C6_cex :
    (chat_handler ⟨true, GenOutcome.ok "hello".toList,
      fun k => decide (0 < k)⟩).sent.length = 2 ∧
    (2 : Nat) ≠ 1 ∧
    (chat_handler ⟨true, GenOutcome.ok "hello".toList,
      fun k => decide (0 < k)⟩).sent = ["hello".toList, unexpectedApology] :=
  ⟨rfl, by decide, rfl⟩

/-- C6 (amended): whenever a non-provider failure occurs before any chunk
was handed to the transport (the typing-indicator call fails, or the
generation step raises a non-`APIError`), and the apology delivery itself
succeeds, the handler emits exactly one chunk, the fixed check-logs
apology — distinct from the provider apology — and nothing escapes the
handler. -/
theorem unexpected_single_C6 (env : ChatEnv)
    (h : env.typingOk = false ∨ (env.typingOk = true ∧ env.gen = GenOutcome.exn))
    (hs : env.sendOk 0 = true) :
    (chat_handler env).sent = [unexpectedApology] ∧
    (chat_handler env).escaped = false ∧
    unexpectedApology ≠ providerApology := by
  have hne : unexpectedApology ≠ providerApology := by decide
  rcases h with h | ⟨h1, h2⟩
  · exact ⟨by simp [chat_handler, h], by simp [chat_handler, h, hs], hne⟩
  · exact ⟨by simp [chat_handler, h1, h2], by simp [chat_handler, h1, h2, hs], hne⟩

theorem unexpected_single_C6_witness :
    ((⟨false, GenOutcome.ok [], fun _ => true⟩ : ChatEnv).typingOk = false ∨
      ((⟨false, GenOutcome.ok [], fun _ => true⟩ : ChatEnv).typingOk = true ∧
       (⟨false, GenOutcome.ok [], fun _ => true⟩ : ChatEnv).gen = GenOutcome.exn)) ∧
    (⟨false, GenOutcome.ok [], fun _ => true⟩ : ChatEnv).sendOk 0 = true ∧
    ((chat_handler ⟨false, GenOutcome.ok [], fun _ => true⟩).sent = [unexpectedApology] ∧
     (chat_handler ⟨false, GenOutcome.ok [], fun _ => true⟩).escaped = false ∧
     unexpectedApology ≠ providerApology) :=
  ⟨Or.inl rfl, rfl, unexpected_single_C6 _ (Or.inl rfl) rfl⟩

/-- C7, counterexample to the claim as stated: when the typing-indicator
call fails, the Gemini call does not take place (zero calls) and no
generated chunk is delivered — only the check-logs apology — so the
pipeline is aborted rather than continued. -/
theorem typing_abort_C7_cex :
    (chat_handler ⟨false, GenOutcome.ok "abc".toList, fun _ => true⟩).genCalls = 0 ∧
    (chat_handler ⟨false, GenOutcome.ok "abc".toList, fun _ => true⟩).sent =
      [unexpectedApology] :=
  ⟨rfl, rfl⟩

/-- C7 (amended): a typing-indicator failure aborts the pipeline before
the AI call: zero `generate_content` calls are issued, no generated chunk
is delivered, and the handler instead emits the single check-logs apology
(escaping only if that apology send itself raises). -/
theorem typing_abort_C7 (env : ChatEnv) (h : env.typingOk = false) :
    (chat_handler env).genCalls = 0 ∧
    (chat_handler env).sent = [unexpectedApology] ∧
    (chat_handler env).escaped = !env.sendOk 0 := by
  obtain ⟨t, g, s⟩ := env
  cases h
  exact ⟨rfl, rfl, rfl⟩

theorem typing_abort_C7_witness :
    (⟨false, GenOutcome.exn, fun _ => false⟩ : ChatEnv).typingOk = false ∧
    ((chat_handler ⟨false, GenOutcome.exn, fun _ => false⟩).genCalls = 0 ∧
     (chat_handler ⟨false, GenOutcome.exn, fun _ => false⟩).sent = [unexpectedApology] ∧
     (chat_handler ⟨false, GenOutcome.exn, fun _ => false⟩).escaped =
       !(⟨false, GenOutcome.exn, fun _ => false⟩ : ChatEnv).sendOk 0) :=
  ⟨rfl, typing_abort_C7 _ rfl⟩

/-- C8, counterexample to the claim as stated: the fallback string of
line 69 interpolates `{e}`, so two different metric-read failures produce
two different strings — the fallback is not one fixed string. -/
theorem health_fixed_C8_cex :
    get_health_status ⟨PyResult.exn "boom".toList, PyResult.ok ([], []),
        PyResult.ok ([], []), []⟩ =
      PyResult.ok (healthFailMsg "boom".toList) ∧
    get_health_status ⟨PyResult.exn "oops".toList, PyResult.ok ([], []),
        PyResult.ok ([], []), []⟩ =
      PyResult.ok (healthFailMsg "oops".toList) ∧
    healthFailMsg "boom".toList ≠ healthFailMsg "oops".toList :=
  ⟨rfl, rfl, by decide⟩

/-- C8 (amended): whenever one of the metric reads raises, the operation
returns — rather than propagates — a fallback string made of a fixed
prefix followed by the rendering of the first raised exception (the string
therefore varies with the failure). -/
theorem health_fallback_C8 (env : HealthEnv) (e : List Char)
    (h : firstMetricsError env = some e) :
    get_health_status env = PyResult.ok (healthFailMsg e) := by
  obtain ⟨c, m, d, n⟩ := env
  cases c with
  | exn e0 =>
      simp only [firstMetricsError, Option.some.injEq] at h
      subst h
      rfl
  | ok cv =>
      cases m with
      | exn e0 =>
          simp only [firstMetricsError, Option.some.injEq] at h
          subst h
          rfl
      | ok mv =>
          cases d with
          | exn e0 =>
              simp only [firstMetricsError, Option.some.injEq] at h
              subst h
              rfl
          | ok dv =>
              simp only [firstMetricsError] at h
              exact Option.noConfusion h

theorem health_fallback_C8_witness :
    firstMetricsError ⟨PyResult.ok [], PyResult.exn "down".toList,
        PyResult.ok ([], []), []⟩ = some "down".toList ∧
    get_health_status ⟨PyResult.ok [], PyResult.exn "down".toList,
        PyResult.ok ([], []), []⟩ =
      PyResult.ok (healthFailMsg "down".toList) :=
  ⟨rfl, health_fallback_C8 _ _ rfl⟩

/-- C10: the health-status operation is total at its interface: whatever
the three metric reads do — any of them raising included — it returns a
string and never lets an exception reach its caller. -/
theorem health_total_C10 (env : HealthEnv) :
    ∃ s, get_health_status env = PyResult.ok s := by
  obtain ⟨c, m, d, n⟩ := env
  cases c <;> cases m <;> cases d <;> exact ⟨_, rfl⟩
